import Mathlib

/-!
Verification of the RAG-pdfChatbot frontend core against its specification.

The development shallowly embeds the request gateway (`frontend/src/api.ts`),
the Dashboard session/document handlers (`frontend/src/components/LandingPage.tsx`,
`Dashboard` component), the Chat component handlers (the unnamed source file
exporting `Chat`), and the persisted configuration store (the `localStorage`
reads/writes in `Dashboard`).

Conventions of the embedding:
- A JavaScript promise outcome is a value of `Except JsError α`: `Except.ok`
  models a resolved promise, `Except.error` models a rejected promise
  (an exception escaping past the function boundary).
- The network is modelled by an `HttpOutcome β` input: the fetch either fails
  at the transport layer before any status is received, returns a non-2xx
  status (with status text), returns 2xx with an unparseable body (so that
  `response.json()` throws a SyntaxError), or returns 2xx with a parsed body
  of the collaborator-contract shape `β`.
- React `useState` state is threaded explicitly: each event handler becomes a
  function from the pre-state (plus its network outcome and wall-clock-derived
  id inputs) to the post-state.  Wall-clock ids and timestamps of messages are
  irrelevant to every stated property and are elided from `MessageItem`;
  `Document.uploadDate` is likewise elided.  Presentation-only state
  (`uploadProgress`, `processingStage`, `activeTab`) is elided as well.
-/

namespace RagPdfChatbot

/-- A JavaScript exception value: whether it is a `TypeError` (fetch transport
failures are `TypeError`s; `new Error(...)` and JSON `SyntaxError`s are not),
and its `message` string. -/
structure JsError where
  isTypeError : Bool
  message : String
deriving DecidableEq, Repr

/-- The message of the `TypeError` thrown by a failed `fetch`: browsers use
"Failed to fetch" / "NetworkError when attempting to fetch resource.", both of
which contain the substring "fetch".  We fix the Chromium text. -/
def fetchFailureMessage : String := "Failed to fetch"

/-! JS string builtins, modelled by structural recursion over the character
list of a `String` so that every concrete instance evaluates by `decide`. -/

/-- The whitespace characters JS `trim` removes that occur in practice. -/
def jsWhitespaceChar (c : Char) : Bool :=
  c == ' ' || c == '\t' || c == '\n' || c == '\r'

/-- JS `String.prototype.trim`. -/
def jsTrim (s : String) : String :=
  String.mk (((s.data.dropWhile jsWhitespaceChar).reverse.dropWhile
    jsWhitespaceChar).reverse)

/-- JS `String.prototype.toLowerCase` (ASCII range, which covers file
names such as "Report.PDF"). -/
def jsToLower (s : String) : String :=
  String.mk (s.data.map Char.toLower)

/-- JS `String.prototype.endsWith`: the last `suffix.length` characters of
`s` are exactly `suffix` (false whenever `s` is shorter). -/
def jsEndsWith (s suffix : String) : Bool :=
  s.data.drop (s.data.length - suffix.data.length) == suffix.data

/-- Whether the second list starts with the first. -/
def leadsList : List Char → List Char → Bool
  | [], _ => true
  | _ :: _, [] => false
  | a :: as, b :: bs => a == b && leadsList as bs

/-- Whether `sub` occurs as a contiguous sublist of the first list. -/
def hasSubList : List Char → List Char → Bool
  | [], sub => leadsList sub []
  | c :: rest, sub => leadsList sub (c :: rest) || hasSubList rest sub

/-- JS `String.prototype.includes`: `s` contains `sub` as a substring. -/
def jsIncludes (s sub : String) : Bool :=
  hasSubList s.data sub.data

/-- The decimal digit character of `n < 10`. -/
def digitChar (n : Nat) : Char := Char.ofNat (48 + n)

/-- Decimal digits of `n`, most significant first, by fuel recursion
(`fuel ≥ 1` suffices for `n < 10`, and `n` itself always suffices). -/
def natDigitsAux : Nat → Nat → List Char
  | 0, _ => []
  | fuel + 1, n =>
      if n < 10 then [digitChar n]
      else natDigitsAux fuel (n / 10) ++ [digitChar (n % 10)]

/-- JS number-to-string on a natural number (used for HTTP status codes). -/
def natRepr (n : Nat) : String := String.mk (natDigitsAux (n + 1) n)

/-- The value of a string of decimal digits; `none` when empty or when any
character is not a digit. -/
def digitsToNat? (l : List Char) : Option Nat :=
  if l.isEmpty then none
  else l.foldl (fun acc? c =>
    acc?.bind fun acc =>
      if c.isDigit then some (acc * 10 + (c.toNat - 48)) else none) (some 0)

/-- Split a character list at the dots ('.'), accumulator-style. -/
def splitDotAux : List Char → List Char → List (List Char)
  | [], acc => [acc.reverse]
  | c :: rest, acc =>
      if c == '.' then acc.reverse :: splitDotAux rest []
      else splitDotAux rest (c :: acc)

/-- Split a character list at the dots ('.'). -/
def splitDot (l : List Char) : List (List Char) := splitDotAux l []

/-- The outcome of one `fetch` round trip, as observed by the api.ts wrappers.
`β` is the parsed shape of a 2xx body per the collaborator contract (spec §6). -/
inductive HttpOutcome (β : Type) where
  /-- Case `response.ok` with the body parsed to the contract shape. -/
  | ok (body : β)
  /-- Case `response.ok` but `response.json()` threw a SyntaxError with this message. -/
  | okUnparseable (parseMsg : String)
  /-- a response arrived with a non-2xx status code and this status text. -/
  | status (code : Nat) (statusText : String)
  /-- the network request failed before any status was received
  (fetch rejected with a `TypeError`). -/
  | transportFailure
deriving DecidableEq, Repr

/-- Holds (is `true`) iff the outcome is a 2xx response with a parseable body. -/
def isOkOutcome {β : Type} : HttpOutcome β → Bool
  | HttpOutcome.ok _ => true
  | _ => false

/-- Holds (is `true`) iff the promise resolved (did not reject with an exception). -/
def resolves {ε α : Type} : Except ε α → Bool
  | Except.ok _ => true
  | Except.error _ => false

/-! ## The request gateway: `frontend/src/api.ts`

Each operation is embedded in two layers mirroring its `try`/`catch`
structure: a `try` layer that maps the fetch outcome to either the success
value or the thrown `JsError`, and the outer function that applies the
`catch` handler (or rethrows, for `listDocuments` and `deleteDocument`).
The `setAuthToken` side effect inside `login` touches only the request
header production and none of the stated properties; it is elided. -/

/-- The 2xx body of POST `/chat` per the collaborator contract: a `response` text. -/
structure ChatBody where
  response : String
deriving DecidableEq, Repr

/-- The value `sendMessage` resolves to: `{ response: ... }`. -/
structure ChatResult where
  response : String
deriving DecidableEq, Repr

/-- The `try` block of `sendMessage` (api.ts lines 20–43): throws on non-2xx
statuses with the classified message, rethrows the SyntaxError of an
unparseable 2xx body, sees the fetch `TypeError` on transport failure. -/
def sendMessageTry : HttpOutcome ChatBody → Except JsError ChatBody
  | HttpOutcome.ok b => Except.ok b
  | HttpOutcome.okUnparseable m => Except.error ⟨false, m⟩
  | HttpOutcome.status c t =>
      Except.error ⟨false,
        if c = 401 then "Authentication required. Please login."
        else if c = 404 then "Service not found. Please check if the backend server is running."
        else if 500 ≤ c then "Server error. Please try again later."
        else "Backend error: " ++ natRepr c ++ " " ++ t⟩
  | HttpOutcome.transportFailure => Except.error ⟨true, fetchFailureMessage⟩

/-- The `catch` block of `sendMessage` (api.ts lines 44–55). -/
def sendMessageCatch (e : JsError) : ChatResult :=
  if e.isTypeError && jsIncludes e.message "fetch" then
    ⟨"Connection failed. Please check if the backend server is running and accessible."⟩
  else if e.message != "" then ⟨e.message⟩
  else ⟨"An unexpected error occurred. Please try again."⟩

/-- api.ts `sendMessage`: every failure is swallowed by the catch handler and
turned into a `{response: ...}` value. -/
def sendMessage (o : HttpOutcome ChatBody) : Except JsError ChatResult :=
  match sendMessageTry o with
  | Except.ok b => Except.ok ⟨b.response⟩
  | Except.error e => Except.ok (sendMessageCatch e)

/-- The 2xx body of POST `/upload` per the collaborator contract:
a `filename` and an optional `status` string. -/
structure UploadBody where
  filename : String
  uploadStatus : Option String
deriving DecidableEq, Repr

/-- The value `uploadFile` resolves to: either the parsed body, or the
`{ error: ... }` object produced by its catch handler. -/
inductive UploadResult where
  | parsed (body : UploadBody)
  | errObj (error : String)
deriving DecidableEq, Repr

/-- The `try` block of `uploadFile` (api.ts lines 60–84). -/
def uploadFileTry : HttpOutcome UploadBody → Except JsError UploadBody
  | HttpOutcome.ok b => Except.ok b
  | HttpOutcome.okUnparseable m => Except.error ⟨false, m⟩
  | HttpOutcome.status c t =>
      Except.error ⟨false,
        if c = 401 then "Authentication required. Please login."
        else if c = 413 then "File too large. Please upload a smaller file."
        else "Upload failed: " ++ natRepr c ++ " " ++ t⟩
  | HttpOutcome.transportFailure => Except.error ⟨true, fetchFailureMessage⟩

/-- The `catch` block of `uploadFile` (api.ts lines 85–96). -/
def uploadFileCatch (e : JsError) : UploadResult :=
  if e.isTypeError && jsIncludes e.message "fetch" then
    UploadResult.errObj "Connection failed. Please check if the backend server is running and accessible."
  else if e.message != "" then UploadResult.errObj e.message
  else UploadResult.errObj "File upload failed. Please try again."

/-- api.ts `uploadFile`: resolves to the parsed body on success and to an
`{ error: ... }` object on every failure. -/
def uploadFile (o : HttpOutcome UploadBody) : Except JsError UploadResult :=
  match uploadFileTry o with
  | Except.ok b => Except.ok (UploadResult.parsed b)
  | Except.error e => Except.ok (uploadFileCatch e)

/-- The 2xx body of POST `/login` per the collaborator contract:
a `success` flag and an optional `message`. -/
structure LoginBody where
  success : Bool
  message : Option String
deriving DecidableEq, Repr

/-- The `try` block of `login` (api.ts lines 100–123). -/
def loginTry : HttpOutcome LoginBody → Except JsError LoginBody
  | HttpOutcome.ok b => Except.ok b
  | HttpOutcome.okUnparseable m => Except.error ⟨false, m⟩
  | HttpOutcome.status c t =>
      Except.error ⟨false,
        if c = 401 then "Invalid username or password."
        else if 500 ≤ c then "Server error. Please try again later."
        else "Login failed: " ++ natRepr c ++ " " ++ t⟩
  | HttpOutcome.transportFailure => Except.error ⟨true, fetchFailureMessage⟩

/-- The `catch` block of `login` (api.ts lines 124–135). -/
def loginCatch (e : JsError) : LoginBody :=
  if e.isTypeError && jsIncludes e.message "fetch" then
    ⟨false, some "Connection failed. Please check if the backend server is running and accessible."⟩
  else if e.message != "" then ⟨false, some e.message⟩
  else ⟨false, some "Login failed. Please check your credentials."⟩

/-- api.ts `login`: resolves to the parsed body on success and to a
`{success: false, message: ...}` value on every failure. -/
def login (o : HttpOutcome LoginBody) : Except JsError LoginBody :=
  match loginTry o with
  | Except.ok b => Except.ok b
  | Except.error e => Except.ok (loginCatch e)

/-- api.ts `getStatus` (lines 139–168): its catch handler returns `null`
(modelled `none`) for every failure, so the promise always resolves. -/
def getStatus {β : Type} (o : HttpOutcome β) : Except JsError (Option β) :=
  match o with
  | HttpOutcome.ok b => Except.ok (some b)
  | _ => Except.ok none

/-- The `try` block of `listDocuments` (api.ts lines 173–190). -/
def listDocumentsTry {β : Type} : HttpOutcome β → Except JsError β
  | HttpOutcome.ok b => Except.ok b
  | HttpOutcome.okUnparseable m => Except.error ⟨false, m⟩
  | HttpOutcome.status c t =>
      Except.error ⟨false,
        if c = 401 then "Authentication required. Please login."
        else if 500 ≤ c then "Server error. Please try again later."
        else "Document list failed: " ++ natRepr c ++ " " ++ t⟩
  | HttpOutcome.transportFailure => Except.error ⟨true, fetchFailureMessage⟩

/-- api.ts `listDocuments`: its catch block logs and then RETHROWS
(`throw error`, line 193), so every failure rejects past the boundary. -/
def listDocuments {β : Type} (o : HttpOutcome β) : Except JsError β :=
  match listDocumentsTry o with
  | Except.ok b => Except.ok b
  | Except.error e => Except.error e

/-- The `try` block of `deleteDocument` (api.ts lines 199–217). -/
def deleteDocumentTry {β : Type} : HttpOutcome β → Except JsError β
  | HttpOutcome.ok b => Except.ok b
  | HttpOutcome.okUnparseable m => Except.error ⟨false, m⟩
  | HttpOutcome.status c t =>
      Except.error ⟨false,
        if c = 401 then "Authentication required. Please login."
        else if 500 ≤ c then "Server error. Please try again later."
        else "Document deletion failed: " ++ natRepr c ++ " " ++ t⟩
  | HttpOutcome.transportFailure => Except.error ⟨true, fetchFailureMessage⟩

/-- api.ts `deleteDocument`: its catch block logs and then RETHROWS
(`throw error`, line 220), so every failure rejects past the boundary. -/
def deleteDocument {β : Type} (o : HttpOutcome β) : Except JsError β :=
  match deleteDocumentTry o with
  | Except.ok b => Except.ok b
  | Except.error e => Except.error e

/-! ## The Dashboard component: `LandingPage.tsx`

State owned by the `Dashboard` component that the claims are about.
Message ids and timestamps (`Date.now()`-derived) and `Document.uploadDate`
play no role in any stated property and are elided; `uploadProgress`,
`processingStage` and `activeTab` are presentation-only strings and are
elided likewise. -/

/-- The `MessageItem.role` field. -/
inductive Role where
  | user
  | assistant
deriving DecidableEq, Repr

/-- A timeline entry (the `MessageItem` interface, fields relevant to the
stated properties). -/
structure MessageItem where
  role : Role
  content : String
deriving DecidableEq, Repr

/-- The `Document.status` enum: `"processing" | "completed" | "failed"`. -/
inductive DocStatus where
  | processing
  | completed
  | failed
deriving DecidableEq, Repr

/-- A tracked document (the `Document` interface, minus `uploadDate`). -/
structure Document where
  id : String
  name : String
  size : Nat
  status : DocStatus
deriving DecidableEq, Repr

/-- The `Dashboard` component state relevant to the claims. -/
structure DashState where
  messages : List MessageItem
  inputValue : String
  isUploading : Bool
  isProcessing : Bool
  documents : List Document
deriving DecidableEq, Repr

/-- A `Dashboard` state with empty timeline and collection and no pending
operation, used as concrete test input. -/
def emptyDash : DashState :=
  { messages := [], inputValue := "", isUploading := false,
    isProcessing := false, documents := [] }

/-- Result of one `sendMessageToBackend` invocation: the post-state, the
number of `/chat` gateway calls issued during the invocation, and whether
the handler's `catch` branch executed. -/
structure ChatStep where
  state : DashState
  chatCalls : Nat
  catchTaken : Bool
deriving DecidableEq, Repr

/-- Embeds `Dashboard.sendMessageToBackend` (LandingPage.tsx lines 259–304).
Guard: `if (!inputValue.trim() || isProcessing) return;`.  The user message
is appended synchronously before the gateway call; the local `inputValue`
binding, captured before `setInputValue("")`, is what is sent.  On a
resolved gateway call the assistant message carries
`data.response || fallback`; the catch branch carries
`error.message || fallback`; `isProcessing` is reset in `finally`. -/
def sendMessageToBackend (st : DashState) (o : HttpOutcome ChatBody) : ChatStep :=
  if jsTrim st.inputValue == "" || st.isProcessing then ⟨st, 0, false⟩
  else
    let afterUser : DashState :=
      { st with
        messages := st.messages ++ [⟨Role.user, st.inputValue⟩],
        inputValue := "",
        isProcessing := true }
    match sendMessage o with
    | Except.ok data =>
        let response :=
          if data.response == "" then
            "I couldn\x27t process that request. Please try again."
          else data.response
        ⟨{ afterUser with
            messages := afterUser.messages ++ [⟨Role.assistant, response⟩],
            isProcessing := false }, 1, false⟩
    | Except.error e =>
        let content :=
          if e.message == "" then "Error connecting to backend. Please try again."
          else e.message
        ⟨{ afterUser with
            messages := afterUser.messages ++ [⟨Role.assistant, content⟩],
            isProcessing := false }, 1, true⟩

/-- The `file` taken from the change event (`files[0]`): the fields the
handler reads. -/
structure FileInfo where
  name : String
  size : Nat
deriving DecidableEq, Repr

/-- The configured upload maximum: `10 * 1024 * 1024` bytes (10 MiB). -/
def pdfUploadLimit : Nat := 10 * 1024 * 1024

/-- Result of one `handleFileUpload` invocation: the post-state, the number
of `/upload` gateway calls issued, whether a new `Document` entry was
created, the ordered sequence of status values assigned to that new entry
by the handler's `setDocuments` updates, and whether the handler's `catch`
branch executed. -/
structure UploadStep where
  state : DashState
  uploadCalls : Nat
  docCreated : Bool
  statusTrace : List DocStatus
  catchTaken : Bool
deriving DecidableEq, Repr

/-- Embeds `Dashboard.handleFileUpload` (LandingPage.tsx lines 306–424), up to but
not including the final authoritative-list refresh `loadDocuments()`.

Control flow from the source: empty file selection returns; a name whose
lowercase form does not end in ".pdf" or a size above the 10 MiB limit
appends an explanatory message and returns before any network use; otherwise
`isUploading` is set (the handler itself never reads it) and `uploadFile`
is awaited.  On resolution a `Document` in `processing` is appended; after
the fixed simulated stages the handler UNCONDITIONALLY maps the new id to
`completed` (line 370) and only then inspects `result.error` /
`result.status.includes("Error")`, mapping the id to `failed` on either
(lines 384, 395).  The success message interpolates `result.filename`. -/
def handleFileUpload (st : DashState) (file? : Option FileInfo) (newId : String)
    (o : HttpOutcome UploadBody) : UploadStep :=
  match file? with
  | none => ⟨st, 0, false, [], false⟩
  | some file =>
    if !(jsEndsWith (jsToLower file.name) ".pdf") then
      ⟨{ st with messages :=
          st.messages ++ [⟨Role.assistant, "Please upload a PDF file."⟩] },
        0, false, [], false⟩
    else if pdfUploadLimit < file.size then
      ⟨{ st with messages :=
          st.messages ++ [⟨Role.assistant,
            "File size exceeds 10MB limit. Please upload a smaller file."⟩] },
        0, false, [], false⟩
    else
      let st1 := { st with isUploading := true }
      match uploadFile o with
      | Except.error e =>
          ⟨{ st1 with
              isUploading := false,
              messages := st1.messages ++ [⟨Role.assistant,
                if e.message == "" then "Error uploading file. Please try again."
                else e.message⟩] },
            1, false, [], true⟩
      | Except.ok result =>
          let newDoc : Document :=
            { id := newId, name := file.name, size := file.size,
              status := DocStatus.processing }
          let st2 := { st1 with documents := st1.documents ++ [newDoc] }
          let st3 : DashState :=
            { st2 with
              isUploading := false,
              documents := st2.documents.map (fun d : Document =>
                if d.id == newId then { d with status := DocStatus.completed } else d) }
          match result with
          | UploadResult.errObj msg =>
              ⟨{ st3 with
                  documents := st3.documents.map (fun d : Document =>
                    if d.id == newId then { d with status := DocStatus.failed } else d),
                  messages := st3.messages ++ [⟨Role.assistant, msg⟩] },
                1, true,
                [DocStatus.processing, DocStatus.completed, DocStatus.failed], false⟩
          | UploadResult.parsed body =>
              if (match body.uploadStatus with
                  | some s => !(s == "") && jsIncludes s "Error"
                  | none => false) then
                ⟨{ st3 with
                    documents := st3.documents.map (fun d : Document =>
                      if d.id == newId then { d with status := DocStatus.failed } else d),
                    messages := st3.messages ++
                      [⟨Role.assistant, body.uploadStatus.getD ""⟩] },
                  1, true,
                  [DocStatus.processing, DocStatus.completed, DocStatus.failed], false⟩
              else
                ⟨{ st3 with
                    messages := st3.messages ++ [⟨Role.assistant,
                      "File " ++ body.filename ++
                        " uploaded and processed successfully! You can now ask questions about the document."⟩] },
                  1, true,
                  [DocStatus.processing, DocStatus.completed], false⟩

/-- Embeds `Dashboard.handleDeleteDocument` (LandingPage.tsx lines 449–469): awaits
the gateway `deleteDocument` first; only when it resolves does
`setDocuments(prev => prev.filter(doc => doc.id !== id))` run; when it
rejects, the catch branch appends `error.message || fallback` and leaves
the collection untouched. -/
def handleDeleteDocument (st : DashState) (id : String)
    (o : HttpOutcome Unit) : DashState :=
  match deleteDocument o with
  | Except.ok _ =>
      { st with
        documents := st.documents.filter fun d => !(d.id == id),
        messages := st.messages ++ [⟨Role.assistant, "Document deleted successfully."⟩] }
  | Except.error e =>
      { st with
        messages := st.messages ++ [⟨Role.assistant,
          if e.message == "" then "Error deleting document. Please try again."
          else e.message⟩] }

/-! ## The Chat component (unnamed source file exporting `Chat`)

The simpler component shares the guard and validation structure of the
`Dashboard` handlers but keeps no document collection. -/

/-- The `Chat` component state. -/
structure ChatComponentState where
  messages : List MessageItem
  inputValue : String
  isUploading : Bool
  isProcessing : Bool
deriving DecidableEq, Repr

/-- Embeds `Chat.sendMessageToBackend` (unnamed part_000 lines 22–41): same blank /
`isProcessing` guard; its catch branch appends a fixed message; returns the
post-state and the number of `/chat` calls issued. -/
def chatSendMessageToBackend (st : ChatComponentState) (o : HttpOutcome ChatBody) :
    ChatComponentState × Nat :=
  if jsTrim st.inputValue == "" || st.isProcessing then (st, 0)
  else
    let afterUser : ChatComponentState :=
      { st with
        messages := st.messages ++ [⟨Role.user, st.inputValue⟩],
        inputValue := "",
        isProcessing := true }
    match sendMessage o with
    | Except.ok data =>
        let response :=
          if data.response == "" then
            "I couldn\x27t process that request. Please try again."
          else data.response
        ({ afterUser with
            messages := afterUser.messages ++ [⟨Role.assistant, response⟩],
            isProcessing := false }, 1)
    | Except.error _ =>
        ({ afterUser with
            messages := afterUser.messages ++ [⟨Role.assistant,
              "Error connecting to backend. Please try again."⟩],
            isProcessing := false }, 1)

/-- Embeds `Chat.handleFileUpload` (unnamed part_000 lines 43–77): same extension
and size validation before any network use; no document collection exists
in this component; returns the post-state and the number of `/upload`
calls issued. -/
def chatHandleFileUpload (st : ChatComponentState) (file? : Option FileInfo)
    (o : HttpOutcome UploadBody) : ChatComponentState × Nat :=
  match file? with
  | none => (st, 0)
  | some file =>
    if !(jsEndsWith (jsToLower file.name) ".pdf") then
      ({ st with messages :=
          st.messages ++ [⟨Role.assistant, "Please upload a PDF file."⟩] }, 0)
    else if pdfUploadLimit < file.size then
      ({ st with messages :=
          st.messages ++ [⟨Role.assistant,
            "File size exceeds 10MB limit. Please upload a smaller file."⟩] }, 0)
    else
      let st1 := { st with isUploading := true }
      match uploadFile o with
      | Except.error _ =>
          ({ st1 with
              isUploading := false,
              messages := st1.messages ++ [⟨Role.assistant,
                "Error uploading file. Please try again."⟩] }, 1)
      | Except.ok result =>
          let st2 := { st1 with isUploading := false }
          match result with
          | UploadResult.errObj msg =>
              ({ st2 with messages := st2.messages ++ [⟨Role.assistant, msg⟩] }, 1)
          | UploadResult.parsed body =>
              if (match body.uploadStatus with
                  | some s => !(s == "") && jsIncludes s "Error"
                  | none => false) then
                ({ st2 with messages := st2.messages ++
                    [⟨Role.assistant, body.uploadStatus.getD ""⟩] }, 1)
              else
                ({ st2 with messages := st2.messages ++ [⟨Role.assistant,
                    "File " ++ body.filename ++
                      " uploaded and processed successfully! You can now ask questions about the document."⟩] }, 1)

/-! ## The persisted configuration store

`Dashboard` initializes `temperature`, `model` and `darkMode` from
`localStorage` (LandingPage.tsx lines 192–203) and persists each of the
three independently via a `useEffect` keyed on that one value
(lines 215–225).  The Advanced Settings inputs (Chunk Size, Chunk Overlap,
Max Tokens; lines 866–899) are uncontrolled inputs with static
`defaultValue` attributes: no component state, no `localStorage` read and
no `localStorage` write exists for them anywhere in the source.

`localStorage` is modelled as an association list from keys to strings.
JavaScript slider numbers are modelled by rationals; the slider's value
domain (`min 0, max 1, step 0.1`) only produces multiples of 1/10, on which
`numToString` agrees with JS `Number.prototype.toString`. -/

/-- The persisted key-value store (`localStorage`). -/
def Store : Type := List (String × String)

/-- An empty store: nothing persisted yet. -/
def emptyStore : Store := []

/-- Embeds `localStorage.getItem`: `none` models JS `null`. -/
def lookupStore : Store → String → Option String
  | [], _ => none
  | (k', v') :: rest, k => if k' = k then some v' else lookupStore rest k

/-- Embeds `localStorage.setItem`. -/
def setStore : Store → String → String → Store
  | [], k, v => [(k, v)]
  | (k', v') :: rest, k, v =>
      if k' = k then (k, v) :: rest else (k', v') :: setStore rest k v

/-- The storage key of the temperature setting. -/
def temperatureKey : String := "pdf-chatbot-temperature"

/-- The storage key of the model setting. -/
def modelKey : String := "pdf-chatbot-model"

/-- The storage key of the dark-mode setting. -/
def darkModeKey : String := "pdf-chatbot-darkMode"

/-- JS `parseFloat` on the decimal strings the settings code produces
("0", "0.7", ...): `none` models `NaN` on a non-numeric string. -/
def parseDecimal (s : String) : Option ℚ :=
  match splitDot s.data with
  | [w] => (digitsToNat? w).map (fun n => (n : ℚ))
  | [w, f] =>
      match digitsToNat? w, digitsToNat? f with
      | some n, some m => some ((n : ℚ) + (m : ℚ) / ((10 : ℚ) ^ f.length))
      | _, _ => none
  | _ => none

/-- JS `Number.prototype.toString` restricted to the slider's value domain
(non-negative multiples of 1/10): "0", "0.1", ..., "1". -/
def numToString (q : ℚ) : String :=
  if q.den = 1 then natRepr q.num.toNat
  else natRepr (q.num / 10).toNat ++ "." ++ natRepr (q.num % 10).toNat

/-- The `useState` initializer of `temperature` (lines 192–195):
`saved ? parseFloat(saved) : 0.1`; an absent or empty (falsy) stored string
falls back to the default `0.1`; `none` models `NaN`. -/
def loadTemperature (st : Store) : Option ℚ :=
  match lookupStore st temperatureKey with
  | none => some (1 / 10)
  | some s => if s = "" then some (1 / 10) else parseDecimal s

/-- The `useState` initializer of `model` (lines 196–199):
`saved || "Flan-T5 Small"`. -/
def loadModel (st : Store) : String :=
  match lookupStore st modelKey with
  | none => "Flan-T5 Small"
  | some s => if s = "" then "Flan-T5 Small" else s

/-- The `useState` initializer of `darkMode` (lines 200–203):
`saved === 'true'`. -/
def loadDarkMode (st : Store) : Bool :=
  match lookupStore st darkModeKey with
  | some s => s = "true"
  | none => false

/-- The `useEffect` persisting `temperature` on change (lines 215–217). -/
def saveTemperature (q : ℚ) (st : Store) : Store :=
  setStore st temperatureKey (numToString q)

/-- The `useEffect` persisting `model` on change (lines 219–221). -/
def saveModel (m : String) (st : Store) : Store :=
  setStore st modelKey m

/-- The `useEffect` persisting `darkMode` on change (lines 223–225):
`darkMode.toString()` is "true"/"false". -/
def saveDarkMode (b : Bool) (st : Store) : Store :=
  setStore st darkModeKey (if b then "true" else "false")

/-- The session configuration as observed on a fresh load of the component.
`temperature = none` models `NaN` (stored string not numeric). -/
structure SessionConfig where
  temperature : Option ℚ
  model : String
  darkMode : Bool
  chunkSize : Nat
  chunkOverlap : Nat
  maxTokens : Nat
deriving DecidableEq, Repr

/-- A fresh load of all configuration fields from the persisted store.
The chunk fields come from the static `defaultValue` attributes of the
uncontrolled Advanced Settings inputs (lines 866–899): the store is never
consulted for them. -/
def loadConfig (st : Store) : SessionConfig :=
  { temperature := loadTemperature st
    model := loadModel st
    darkMode := loadDarkMode st
    chunkSize := 300
    chunkOverlap := 50
    maxTokens := 300 }

/-! ## Derived notions used by the stated properties -/

/-- The client-side validation gate of `handleFileUpload`: the lowercased
name ends in ".pdf" and the size does not exceed the 10 MiB limit. -/
def clientSideValid (f : FileInfo) : Bool :=
  jsEndsWith (jsToLower f.name) ".pdf" && !(pdfUploadLimit < f.size)

/-- The upload handler's failure test on the resolved value of
`uploadFile`: true on every non-ok outcome (transport failure, non-2xx
status, or unparseable 2xx body — all of which `uploadFile`'s catch turns
into an `{error: ...}` object, caught by the handler's `result.error`
check), and on a parseable 2xx body whose `status` string is nonempty and
contains "Error" (the handler's `result.status.includes("Error")` check);
false exactly on the remaining, successful, outcomes. -/
def uploadErrorOutcome : HttpOutcome UploadBody → Bool
  | HttpOutcome.ok body =>
      match body.uploadStatus with
      | some s => !(s == "") && jsIncludes s "Error"
      | none => false
  | _ => true

/-- Whether a status-assignment sequence treats `completed`/`failed` as
terminal: no further assignment occurs after either is reached. -/
def terminalRespected : List DocStatus → Bool
  | [] => true
  | s :: rest =>
      if s == DocStatus.completed || s == DocStatus.failed then rest.isEmpty
      else terminalRespected rest

/-! ## Helper lemmas shared by the claim theorems -/

/-- Reading back the key just written returns the written value. -/
theorem lookup_setStore_same (st : Store) (k v : String) :
    lookupStore (setStore st k v) k = some v := by
  induction st with
  | nil => simp [setStore, lookupStore]
  | cons hd tl ih =>
      obtain ⟨k', v'⟩ := hd
      by_cases h : k' = k <;> simp [setStore, lookupStore, h, ih]

/-- Writing one key leaves every other key unchanged. -/
theorem lookup_setStore_other (st : Store) (k k' v : String) (h : k ≠ k') :
    lookupStore (setStore st k v) k' = lookupStore st k' := by
  induction st with
  | nil => simp [setStore, lookupStore, h]
  | cons hd tl ih =>
      obtain ⟨a, b⟩ := hd
      by_cases ha : a = k <;> by_cases hb : a = k' <;>
        simp_all [setStore, lookupStore]

/-- The slider value 0.7 serializes as JS does: "0.7". -/
theorem numToString_seven_tenths : numToString (7 / 10 : ℚ) = "0.7" := by
  norm_num [numToString, natRepr, natDigitsAux, digitChar]
  decide

/-- A filter by a predicate and by its negation partition the length. -/
theorem length_filter_id_partition (l : List Document) (id : String) :
    (l.filter fun d => !(d.id == id)).length +
      (l.filter fun d => (d.id == id)).length = l.length := by
  induction l with
  | nil => simp
  | cons hd tl ih =>
      by_cases h : hd.id = id <;> simp [List.filter_cons, h] <;> omega

/-- The catch handler of `uploadFile` always produces an `{error: ...}`
object. -/
theorem uploadFileCatch_errObj (e : JsError) :
    ∃ msg : String, uploadFileCatch e = UploadResult.errObj msg := by
  unfold uploadFileCatch
  split
  · exact ⟨_, rfl⟩
  · split
    · exact ⟨_, rfl⟩
    · exact ⟨_, rfl⟩

/-! ## Claim C3 -/

/-- C3, counterexample: the claim says every request-gateway operation
never throws past its boundary, but `listDocuments` rejects on a transport
failure and `deleteDocument` rejects on a 500 response — both rethrow the
exception to their caller. -/
theorem c3_counterexample :
    listDocuments (HttpOutcome.transportFailure : HttpOutcome Unit) =
      Except.error ⟨true, fetchFailureMessage⟩ ∧
    deleteDocument (HttpOutcome.status 500 "Internal Server Error" : HttpOutcome Unit) =
      Except.error ⟨false, "Server error. Please try again later."⟩ :=
  ⟨rfl, rfl⟩

/-- C3, amended: `sendMessage`, `uploadFile`, `login` and `getStatus`
resolve to typed results on every outcome (they never throw past their
boundary), whereas `listDocuments` and `deleteDocument` resolve exactly on
a parseable 2xx response and rethrow every failure past their boundary. -/
theorem c3_amended :
    (∀ o : HttpOutcome ChatBody, resolves (sendMessage o) = true) ∧
    (∀ o : HttpOutcome UploadBody, resolves (uploadFile o) = true) ∧
    (∀ o : HttpOutcome LoginBody, resolves (login o) = true) ∧
    (∀ (β : Type) (o : HttpOutcome β), resolves (getStatus o) = true) ∧
    (∀ (β : Type) (o : HttpOutcome β), resolves (listDocuments o) = isOkOutcome o) ∧
    (∀ (β : Type) (o : HttpOutcome β), resolves (deleteDocument o) = isOkOutcome o) := by
  refine ⟨fun o => ?_, fun o => ?_, fun o => ?_, fun β o => ?_, fun β o => ?_, fun β o => ?_⟩ <;>
    cases o <;>
      simp [sendMessage, sendMessageTry, uploadFile, uploadFileTry, login, loginTry,
        getStatus, listDocuments, listDocumentsTry, deleteDocument, deleteDocumentTry,
        resolves, isOkOutcome]

/-! ## Claim C10 -/

/-- C10: `sendMessage` and `uploadFile` are total at the API boundary —
on every outcome `sendMessage` resolves to an object with a string
`response` field and `uploadFile` resolves to either the parsed body or an
`{error: string}` object; neither rejects, so the catch branches of
`sendMessageToBackend` and `handleFileUpload` are unreachable. -/
theorem c10_boundary_totality :
    (∀ o : HttpOutcome ChatBody, ∃ s : String, sendMessage o = Except.ok ⟨s⟩) ∧
    (∀ o : HttpOutcome UploadBody, ∃ r : UploadResult, uploadFile o = Except.ok r) ∧
    (∀ (st : DashState) (o : HttpOutcome ChatBody),
      (sendMessageToBackend st o).catchTaken = false) ∧
    (∀ (st : DashState) (f : Option FileInfo) (id : String) (o : HttpOutcome UploadBody),
      (handleFileUpload st f id o).catchTaken = false) := by
  have hchat : ∀ o : HttpOutcome ChatBody, ∃ s : String, sendMessage o = Except.ok ⟨s⟩ := by
    intro o
    cases o <;> exact ⟨_, rfl⟩
  have hupload : ∀ o : HttpOutcome UploadBody, ∃ r : UploadResult, uploadFile o = Except.ok r := by
    intro o
    cases o <;> exact ⟨_, rfl⟩
  refine ⟨hchat, hupload, fun st o => ?_, fun st f id o => ?_⟩
  · obtain ⟨s, hs⟩ := hchat o
    simp only [sendMessageToBackend, hs]
    split <;> rfl
  · obtain ⟨r, hr⟩ := hupload o
    cases f with
    | none => rfl
    | some file =>
        simp only [handleFileUpload, hr]
        split
        · rfl
        · split
          · rfl
          · cases r with
            | errObj msg => rfl
            | parsed body =>
                by_cases hb : (match body.uploadStatus with
                  | some s => !(s == "") && jsIncludes s "Error"
                  | none => false) = true <;>
                  simp [hb]

/-! ## Claim C5 -/

/-- C5: a send whose input is empty or whitespace-only after trimming, or
that arrives while `isProcessing` (the Answering state) is set, is a
no-op in both components: the state is unchanged (so no Message is
appended) and no `/chat` gateway call is issued. -/
theorem c5_blank_or_answering_noop :
    (∀ (st : DashState) (o : HttpOutcome ChatBody),
      jsTrim st.inputValue = "" ∨ st.isProcessing = true →
        sendMessageToBackend st o = ⟨st, 0, false⟩) ∧
    (∀ (st : ChatComponentState) (o : HttpOutcome ChatBody),
      jsTrim st.inputValue = "" ∨ st.isProcessing = true →
        chatSendMessageToBackend st o = (st, 0)) := by
  constructor <;> intro st o h <;>
    rcases h with h | h <;>
      simp [sendMessageToBackend, chatSendMessageToBackend, h]

/-- C5, witness: a whitespace-only input and a send during Answering are
both no-ops at concrete states. -/
theorem c5_blank_or_answering_noop_witness :
    sendMessageToBackend { emptyDash with inputValue := "   " }
        (HttpOutcome.ok ⟨"42"⟩) =
      ⟨{ emptyDash with inputValue := "   " }, 0, false⟩ ∧
    chatSendMessageToBackend ⟨[], "question", false, true⟩
        (HttpOutcome.ok ⟨"42"⟩) =
      (⟨[], "question", false, true⟩, 0) :=
  ⟨c5_blank_or_answering_noop.1 _ _ (Or.inl (by decide)),
   c5_blank_or_answering_noop.2 _ _ (Or.inr (by decide))⟩

/-! ## Claim C6 -/

/-- C6: when the gateway call of a send fails as Unauthenticated (HTTP
401), the appended assistant Message content is exactly "Authentication
required. Please login." (appended right after the user Message), and
`isProcessing` is back to false after the operation. -/
theorem c6_unauthenticated_message (st : DashState) (t : String)
    (hne : jsTrim st.inputValue ≠ "") (hp : st.isProcessing = false) :
    (sendMessageToBackend st (HttpOutcome.status 401 t)).state.messages =
      st.messages ++ [⟨Role.user, st.inputValue⟩,
        ⟨Role.assistant, "Authentication required. Please login."⟩] ∧
    (sendMessageToBackend st (HttpOutcome.status 401 t)).state.isProcessing = false := by
  have hguard : (jsTrim st.inputValue == "" || st.isProcessing) = false := by
    simp [hne, hp]
  have hsend : sendMessage (HttpOutcome.status 401 t) =
      Except.ok ⟨"Authentication required. Please login."⟩ := rfl
  simp [sendMessageToBackend, hguard, hsend]

/-- C6, witness: at a concrete ready state, a 401 yields exactly the
Unauthenticated text and clears `isProcessing`. -/
theorem c6_unauthenticated_message_witness :
    (sendMessageToBackend { emptyDash with inputValue := "hello" }
        (HttpOutcome.status 401 "Unauthorized")).state.messages =
      [⟨Role.user, "hello"⟩,
        ⟨Role.assistant, "Authentication required. Please login."⟩] ∧
    (sendMessageToBackend { emptyDash with inputValue := "hello" }
        (HttpOutcome.status 401 "Unauthorized")).state.isProcessing = false := by
  have h := c6_unauthenticated_message { emptyDash with inputValue := "hello" }
    "Unauthorized" (by decide) (by decide)
  simpa using h

/-! ## Claim C1 -/

/-- C1, counterexample: on an upload whose gateway call resolves to a
transport-failure error object, the handler assigns the new document
`processing`, then unconditionally `completed`, then `failed` — so
`completed` is not terminal and both terminal statuses are reached in
sequence, contradicting the claim. -/
theorem c1_counterexample :
    (handleFileUpload emptyDash (some ⟨"report.pdf", 100⟩) "1"
      HttpOutcome.transportFailure).statusTrace =
      [DocStatus.processing, DocStatus.completed, DocStatus.failed] ∧
    terminalRespected
      (handleFileUpload emptyDash (some ⟨"report.pdf", 100⟩) "1"
        HttpOutcome.transportFailure).statusTrace = false := by
  constructor <;> rfl

/-- C1, amended: the statuses assigned to the document created by one
upload of a client-side-valid file are, in order, exactly
`processing, completed` on a success outcome and
`processing, completed, failed` on an error outcome (the handler marks
the document `completed` unconditionally before inspecting the result, so
on the error path `completed` is transiently assigned before the final
`failed`); the final resolved status is therefore exactly one of
`completed` or `failed`, `processing` is never re-entered, and a rejected
or empty selection assigns no status at all. -/
theorem c1_amended :
    (∀ (st : DashState) (f : FileInfo) (id : String) (o : HttpOutcome UploadBody),
      clientSideValid f = true → uploadErrorOutcome o = false →
        (handleFileUpload st (some f) id o).statusTrace =
          [DocStatus.processing, DocStatus.completed]) ∧
    (∀ (st : DashState) (f : FileInfo) (id : String) (o : HttpOutcome UploadBody),
      clientSideValid f = true → uploadErrorOutcome o = true →
        (handleFileUpload st (some f) id o).statusTrace =
          [DocStatus.processing, DocStatus.completed, DocStatus.failed]) ∧
    (∀ (st : DashState) (f : FileInfo) (id : String) (o : HttpOutcome UploadBody),
      clientSideValid f = false →
        (handleFileUpload st (some f) id o).statusTrace = []) ∧
    (∀ (st : DashState) (id : String) (o : HttpOutcome UploadBody),
      (handleFileUpload st none id o).statusTrace = []) := by
  refine ⟨?_, ?_, ?_, fun st id o => rfl⟩
  · intro st f id o hv herr
    simp [clientSideValid, Bool.and_eq_true] at hv
    obtain ⟨h1, h2p⟩ := hv
    have h2 : ¬ (pdfUploadLimit < f.size) := Nat.not_lt.mpr h2p
    cases o with
    | ok body =>
        have hb : (match body.uploadStatus with
          | some s => !(s == "") && jsIncludes s "Error"
          | none => false) = false := by
          simpa [uploadErrorOutcome] using herr
        simp [handleFileUpload, h1, h2, uploadFile, uploadFileTry, hb]
    | okUnparseable m => simp [uploadErrorOutcome] at herr
    | status c t => simp [uploadErrorOutcome] at herr
    | transportFailure => simp [uploadErrorOutcome] at herr
  · intro st f id o hv herr
    simp [clientSideValid, Bool.and_eq_true] at hv
    obtain ⟨h1, h2p⟩ := hv
    have h2 : ¬ (pdfUploadLimit < f.size) := Nat.not_lt.mpr h2p
    cases o with
    | ok body =>
        have hb : (match body.uploadStatus with
          | some s => !(s == "") && jsIncludes s "Error"
          | none => false) = true := by
          simpa [uploadErrorOutcome] using herr
        simp [handleFileUpload, h1, h2, uploadFile, uploadFileTry, hb]
    | okUnparseable m =>
        obtain ⟨msg, hm⟩ := uploadFileCatch_errObj ⟨false, m⟩
        simp [handleFileUpload, h1, h2, uploadFile, uploadFileTry, hm]
    | status c t =>
        obtain ⟨msg, hm⟩ := uploadFileCatch_errObj ⟨false,
          if c = 401 then "Authentication required. Please login."
          else if c = 413 then "File too large. Please upload a smaller file."
          else "Upload failed: " ++ natRepr c ++ " " ++ t⟩
        simp [handleFileUpload, h1, h2, uploadFile, uploadFileTry, hm]
    | transportFailure =>
        obtain ⟨msg, hm⟩ := uploadFileCatch_errObj ⟨true, fetchFailureMessage⟩
        simp [handleFileUpload, h1, h2, uploadFile, uploadFileTry, hm]
  · intro st f id o hv
    by_cases h1 : jsEndsWith (jsToLower f.name) ".pdf"
    · by_cases h2 : pdfUploadLimit < f.size
      · simp [handleFileUpload, h1, h2]
      · exfalso
        have hvt : clientSideValid f = true := by
          simp [clientSideValid, h1, h2]
        simp [hvt] at hv
    · simp [handleFileUpload, h1]

/-- C1, witness: a successful upload traces processing then completed, an
errored upload traces processing, completed, failed, and an invalid
selection traces nothing, at concrete inputs. -/
theorem c1_amended_witness :
    (handleFileUpload emptyDash (some ⟨"report.pdf", 100⟩) "1"
      (HttpOutcome.ok ⟨"report.pdf", none⟩)).statusTrace =
        [DocStatus.processing, DocStatus.completed] ∧
    (handleFileUpload emptyDash (some ⟨"report.pdf", 100⟩) "2"
      HttpOutcome.transportFailure).statusTrace =
        [DocStatus.processing, DocStatus.completed, DocStatus.failed] ∧
    (handleFileUpload emptyDash (some ⟨"image.png", 100⟩) "3"
      HttpOutcome.transportFailure).statusTrace = [] :=
  ⟨c1_amended.1 emptyDash ⟨"report.pdf", 100⟩ "1"
      (HttpOutcome.ok ⟨"report.pdf", none⟩) (by decide) (by decide),
   c1_amended.2.1 emptyDash ⟨"report.pdf", 100⟩ "2"
      HttpOutcome.transportFailure (by decide) (by decide),
   c1_amended.2.2.1 emptyDash ⟨"image.png", 100⟩ "3"
      HttpOutcome.transportFailure (by decide)⟩

/-! ## Claim C2 -/

/-- C2, counterexample: the gateway upload call resolves to a transport
failure (an error outcome), yet a new Document entry is created in the
local collection — contradicting the claim that no Document is created on
an error outcome. -/
theorem c2_counterexample :
    (handleFileUpload emptyDash (some ⟨"report.pdf", 100⟩) "1"
      HttpOutcome.transportFailure).state.documents =
      [⟨"1", "report.pdf", 100, DocStatus.failed⟩] ∧
    (handleFileUpload emptyDash (some ⟨"report.pdf", 100⟩) "1"
      HttpOutcome.transportFailure).docCreated = true := by
  constructor <;> rfl

/-- C2, amended: a Document is created whenever a client-side-valid file's
upload call resolves — on error outcomes as well as success — adding
exactly one entry (appended last) to the collection; on an error outcome
that entry is resolved `failed`, on a success outcome `completed`; a file
selection that fails client-side validation never becomes a Document. -/
theorem c2_amended (st : DashState) (f : FileInfo) (id : String)
    (o : HttpOutcome UploadBody) :
    (clientSideValid f = true →
      (handleFileUpload st (some f) id o).docCreated = true ∧
      (handleFileUpload st (some f) id o).state.documents.length =
        st.documents.length + 1) ∧
    (clientSideValid f = true → uploadErrorOutcome o = true →
      (handleFileUpload st (some f) id o).state.documents.getLast? =
        some ⟨id, f.name, f.size, DocStatus.failed⟩) ∧
    (clientSideValid f = true → uploadErrorOutcome o = false →
      (handleFileUpload st (some f) id o).state.documents.getLast? =
        some ⟨id, f.name, f.size, DocStatus.completed⟩) ∧
    (clientSideValid f = false →
      (handleFileUpload st (some f) id o).docCreated = false ∧
      (handleFileUpload st (some f) id o).state.documents = st.documents) := by
  have hvalid : clientSideValid f = true →
      jsEndsWith (jsToLower f.name) ".pdf" = true ∧ ¬ (pdfUploadLimit < f.size) := by
    intro hv
    simp [clientSideValid, Bool.and_eq_true] at hv
    exact ⟨hv.1, Nat.not_lt.mpr hv.2⟩
  refine ⟨?_, ?_, ?_, ?_⟩
  · intro hv
    obtain ⟨h1, h2⟩ := hvalid hv
    cases o with
    | ok body =>
        by_cases hb : (match body.uploadStatus with
          | some s => !(s == "") && jsIncludes s "Error"
          | none => false) = true <;>
          simp [handleFileUpload, h1, h2, uploadFile, uploadFileTry, hb]
    | okUnparseable m =>
        obtain ⟨msg, hm⟩ := uploadFileCatch_errObj ⟨false, m⟩
        simp [handleFileUpload, h1, h2, uploadFile, uploadFileTry, hm]
    | status c t =>
        obtain ⟨msg, hm⟩ := uploadFileCatch_errObj ⟨false,
          if c = 401 then "Authentication required. Please login."
          else if c = 413 then "File too large. Please upload a smaller file."
          else "Upload failed: " ++ natRepr c ++ " " ++ t⟩
        simp [handleFileUpload, h1, h2, uploadFile, uploadFileTry, hm]
    | transportFailure =>
        obtain ⟨msg, hm⟩ := uploadFileCatch_errObj ⟨true, fetchFailureMessage⟩
        simp [handleFileUpload, h1, h2, uploadFile, uploadFileTry, hm]
  · intro hv herr
    obtain ⟨h1, h2⟩ := hvalid hv
    cases o with
    | ok body =>
        have hb : (match body.uploadStatus with
          | some s => !(s == "") && jsIncludes s "Error"
          | none => false) = true := by
          simpa [uploadErrorOutcome] using herr
        simp [handleFileUpload, h1, h2, uploadFile, uploadFileTry, hb,
          List.getLast?_append_cons]
    | okUnparseable m =>
        obtain ⟨msg, hm⟩ := uploadFileCatch_errObj ⟨false, m⟩
        simp [handleFileUpload, h1, h2, uploadFile, uploadFileTry, hm,
          List.getLast?_append_cons]
    | status c t =>
        obtain ⟨msg, hm⟩ := uploadFileCatch_errObj ⟨false,
          if c = 401 then "Authentication required. Please login."
          else if c = 413 then "File too large. Please upload a smaller file."
          else "Upload failed: " ++ natRepr c ++ " " ++ t⟩
        simp [handleFileUpload, h1, h2, uploadFile, uploadFileTry, hm,
          List.getLast?_append_cons]
    | transportFailure =>
        obtain ⟨msg, hm⟩ := uploadFileCatch_errObj ⟨true, fetchFailureMessage⟩
        simp [handleFileUpload, h1, h2, uploadFile, uploadFileTry, hm,
          List.getLast?_append_cons]
  · intro hv herr
    obtain ⟨h1, h2⟩ := hvalid hv
    cases o with
    | ok body =>
        have hb : (match body.uploadStatus with
          | some s => !(s == "") && jsIncludes s "Error"
          | none => false) = false := by
          simpa [uploadErrorOutcome] using herr
        simp [handleFileUpload, h1, h2, uploadFile, uploadFileTry, hb,
          List.getLast?_append_cons]
    | okUnparseable m => simp [uploadErrorOutcome] at herr
    | status c t => simp [uploadErrorOutcome] at herr
    | transportFailure => simp [uploadErrorOutcome] at herr
  · intro hv
    by_cases h1 : jsEndsWith (jsToLower f.name) ".pdf"
    · by_cases h2 : pdfUploadLimit < f.size
      · simp [handleFileUpload, h1, h2]
      · exfalso
        have hvt : clientSideValid f = true := by
          simp [clientSideValid, h1, h2]
        simp [hvt] at hv
    · simp [handleFileUpload, h1]

/-- C2, witness: an errored upload of a valid file still creates exactly
one Document and resolves it failed, a successful upload resolves it
completed, and an invalid selection creates none. -/
theorem c2_amended_witness :
    ((handleFileUpload emptyDash (some ⟨"report.pdf", 100⟩) "1"
        HttpOutcome.transportFailure).docCreated = true ∧
      (handleFileUpload emptyDash (some ⟨"report.pdf", 100⟩) "1"
        HttpOutcome.transportFailure).state.documents.length =
        emptyDash.documents.length + 1) ∧
    (handleFileUpload emptyDash (some ⟨"report.pdf", 100⟩) "1"
        HttpOutcome.transportFailure).state.documents.getLast? =
      some ⟨"1", "report.pdf", 100, DocStatus.failed⟩ ∧
    (handleFileUpload emptyDash (some ⟨"report.pdf", 100⟩) "1"
        (HttpOutcome.ok ⟨"report.pdf", none⟩)).state.documents.getLast? =
      some ⟨"1", "report.pdf", 100, DocStatus.completed⟩ ∧
    ((handleFileUpload emptyDash (some ⟨"image.png", 100⟩) "2"
        HttpOutcome.transportFailure).docCreated = false ∧
      (handleFileUpload emptyDash (some ⟨"image.png", 100⟩) "2"
        HttpOutcome.transportFailure).state.documents = emptyDash.documents) :=
  ⟨(c2_amended emptyDash ⟨"report.pdf", 100⟩ "1" HttpOutcome.transportFailure).1
      (by decide),
   (c2_amended emptyDash ⟨"report.pdf", 100⟩ "1" HttpOutcome.transportFailure).2.1
      (by decide) (by decide),
   (c2_amended emptyDash ⟨"report.pdf", 100⟩ "1"
      (HttpOutcome.ok ⟨"report.pdf", none⟩)).2.2.1 (by decide) (by decide),
   (c2_amended emptyDash ⟨"image.png", 100⟩ "2" HttpOutcome.transportFailure).2.2.2
      (by decide)⟩

/-! ## Claim C4 -/

/-- C4, counterexample: invoking the upload handler while `isUploading` is
already true still issues a gateway upload call — the handler contains no
`isUploading` guard, contradicting the claim that no new gateway call is
issued while an upload is in flight. -/
theorem c4_counterexample :
    ({ emptyDash with isUploading := true } : DashState).isUploading = true ∧
    (handleFileUpload { emptyDash with isUploading := true }
      (some ⟨"report.pdf", 100⟩) "1"
      (HttpOutcome.ok ⟨"report.pdf", none⟩)).uploadCalls = 1 :=
  ⟨rfl, rfl⟩

/-- C4, amended: neither upload handler reads `isUploading`: an invocation
of `handleFileUpload` (or the Chat component's handler) while
`isUploading` is true still issues exactly one gateway upload call
whenever client-side validation passes; single-flight is enforced only by
the presentation layer disabling the sidebar upload button (and the
documents-tab upload button is not even disabled). -/
theorem c4_amended :
    (∀ (st : DashState) (f : FileInfo) (id : String) (o : HttpOutcome UploadBody),
      st.isUploading = true → clientSideValid f = true →
        (handleFileUpload st (some f) id o).uploadCalls = 1) ∧
    (∀ (st : ChatComponentState) (f : FileInfo) (o : HttpOutcome UploadBody),
      st.isUploading = true → clientSideValid f = true →
        (chatHandleFileUpload st (some f) o).2 = 1) := by
  constructor
  · intro st f id o _ hv
    simp [clientSideValid, Bool.and_eq_true] at hv
    obtain ⟨h1, h2p⟩ := hv
    have h2 : ¬ (pdfUploadLimit < f.size) := Nat.not_lt.mpr h2p
    cases huf : uploadFile o with
    | ok r =>
        cases r with
        | errObj msg => simp [handleFileUpload, h1, h2, huf]
        | parsed body =>
            by_cases hb : (match body.uploadStatus with
              | some s => !(s == "") && jsIncludes s "Error"
              | none => false) = true <;>
              simp [handleFileUpload, h1, h2, huf, hb]
    | error e => simp [handleFileUpload, h1, h2, huf]
  · intro st f o _ hv
    simp [clientSideValid, Bool.and_eq_true] at hv
    obtain ⟨h1, h2p⟩ := hv
    have h2 : ¬ (pdfUploadLimit < f.size) := Nat.not_lt.mpr h2p
    cases huf : uploadFile o with
    | ok r =>
        cases r with
        | errObj msg => simp [chatHandleFileUpload, h1, h2, huf]
        | parsed body =>
            by_cases hb : (match body.uploadStatus with
              | some s => !(s == "") && jsIncludes s "Error"
              | none => false) = true <;>
              simp [chatHandleFileUpload, h1, h2, huf, hb]
    | error e => simp [chatHandleFileUpload, h1, h2, huf]

/-- C4, witness: with an upload already in flight, both handlers issue one
gateway call at a concrete valid file. -/
theorem c4_amended_witness :
    (handleFileUpload { emptyDash with isUploading := true }
      (some ⟨"report.pdf", 100⟩) "1" HttpOutcome.transportFailure).uploadCalls = 1 ∧
    (chatHandleFileUpload ⟨[], "", true, false⟩
      (some ⟨"report.pdf", 100⟩) HttpOutcome.transportFailure).2 = 1 :=
  ⟨c4_amended.1 { emptyDash with isUploading := true } ⟨"report.pdf", 100⟩ "1"
      HttpOutcome.transportFailure (by decide) (by decide),
   c4_amended.2 ⟨[], "", true, false⟩ ⟨"report.pdf", 100⟩
      HttpOutcome.transportFailure (by decide) (by decide)⟩

/-! ## Claim C7 -/

/-- C7: a file whose lowercased name does not end in ".pdf", or whose size
exceeds the 10 MiB limit, is rejected by both upload handlers before any
network use: exactly one explanatory assistant Message is appended, no
Document is created, and no gateway call is issued. -/
theorem c7_validation_gate :
    (∀ (st : DashState) (f : FileInfo) (id : String) (o : HttpOutcome UploadBody),
      jsEndsWith (jsToLower f.name) ".pdf" = false →
        handleFileUpload st (some f) id o =
          ⟨{ st with messages := st.messages ++
              [⟨Role.assistant, "Please upload a PDF file."⟩] }, 0, false, [], false⟩) ∧
    (∀ (st : DashState) (f : FileInfo) (id : String) (o : HttpOutcome UploadBody),
      jsEndsWith (jsToLower f.name) ".pdf" = true → pdfUploadLimit < f.size →
        handleFileUpload st (some f) id o =
          ⟨{ st with messages := st.messages ++
              [⟨Role.assistant,
                "File size exceeds 10MB limit. Please upload a smaller file."⟩] },
            0, false, [], false⟩) ∧
    (∀ (st : ChatComponentState) (f : FileInfo) (o : HttpOutcome UploadBody),
      jsEndsWith (jsToLower f.name) ".pdf" = false →
        chatHandleFileUpload st (some f) o =
          ({ st with messages := st.messages ++
              [⟨Role.assistant, "Please upload a PDF file."⟩] }, 0)) ∧
    (∀ (st : ChatComponentState) (f : FileInfo) (o : HttpOutcome UploadBody),
      jsEndsWith (jsToLower f.name) ".pdf" = true → pdfUploadLimit < f.size →
        chatHandleFileUpload st (some f) o =
          ({ st with messages := st.messages ++
              [⟨Role.assistant,
                "File size exceeds 10MB limit. Please upload a smaller file."⟩] }, 0)) := by
  refine ⟨fun st f id o h1 => ?_, fun st f id o h1 h2 => ?_,
    fun st f o h1 => ?_, fun st f o h1 h2 => ?_⟩
  · simp [handleFileUpload, h1]
  · simp [handleFileUpload, h1, h2]
  · simp [chatHandleFileUpload, h1]
  · simp [chatHandleFileUpload, h1, h2]

/-- C7, witness: a PNG name and an oversize PDF are rejected with the
explanatory message, no Document, and no gateway call, in both
components. -/
theorem c7_validation_gate_witness :
    handleFileUpload emptyDash (some ⟨"image.png", 100⟩) "1"
        HttpOutcome.transportFailure =
      ⟨{ emptyDash with messages :=
          [⟨Role.assistant, "Please upload a PDF file."⟩] }, 0, false, [], false⟩ ∧
    handleFileUpload emptyDash (some ⟨"big.pdf", 11534336⟩) "1"
        HttpOutcome.transportFailure =
      ⟨{ emptyDash with messages :=
          [⟨Role.assistant,
            "File size exceeds 10MB limit. Please upload a smaller file."⟩] },
        0, false, [], false⟩ ∧
    chatHandleFileUpload ⟨[], "", false, false⟩ (some ⟨"image.png", 100⟩)
        HttpOutcome.transportFailure =
      (⟨[⟨Role.assistant, "Please upload a PDF file."⟩], "", false, false⟩, 0) ∧
    chatHandleFileUpload ⟨[], "", false, false⟩ (some ⟨"big.pdf", 11534336⟩)
        HttpOutcome.transportFailure =
      (⟨[⟨Role.assistant,
          "File size exceeds 10MB limit. Please upload a smaller file."⟩],
        "", false, false⟩, 0) := by
  refine ⟨?_, ?_, ?_, ?_⟩
  · have h := c7_validation_gate.1 emptyDash ⟨"image.png", 100⟩ "1"
      HttpOutcome.transportFailure (by decide)
    simpa using h
  · have h := c7_validation_gate.2.1 emptyDash ⟨"big.pdf", 11534336⟩ "1"
      HttpOutcome.transportFailure (by decide) (by decide)
    simpa using h
  · have h := c7_validation_gate.2.2.1 ⟨[], "", false, false⟩ ⟨"image.png", 100⟩
      HttpOutcome.transportFailure (by decide)
    simpa using h
  · have h := c7_validation_gate.2.2.2 ⟨[], "", false, false⟩ ⟨"big.pdf", 11534336⟩
      HttpOutcome.transportFailure (by decide) (by decide)
    simpa using h

/-! ## Claim C8 -/

/-- C8, counterexample: deleting an id absent from the (empty) local
collection with a confirming gateway response removes zero entries, not
exactly one, contradicting the claim's success clause. -/
theorem c8_counterexample :
    (handleDeleteDocument emptyDash "x" (HttpOutcome.ok ())).documents = [] ∧
    ¬ ((handleDeleteDocument emptyDash "x" (HttpOutcome.ok ())).documents.length + 1 =
        emptyDash.documents.length) := by
  exact ⟨rfl, by decide⟩

/-- C8, amended: the delete handler calls the gateway first and mutates
the local collection only when the gateway call resolves; on a failure the
collection is unchanged (including when the id is absent); on success all
entries with the given id are removed — exactly one when the id occurs
exactly once, and zero (a no-op) when the id is absent. -/
theorem c8_amended (st : DashState) (id : String) (o : HttpOutcome Unit) :
    (isOkOutcome o = false →
      (handleDeleteDocument st id o).documents = st.documents) ∧
    (isOkOutcome o = true →
      (handleDeleteDocument st id o).documents =
        st.documents.filter fun d => !(d.id == id)) ∧
    (isOkOutcome o = true →
      (st.documents.filter fun d => (d.id == id)).length = 1 →
      (handleDeleteDocument st id o).documents.length + 1 = st.documents.length) ∧
    (isOkOutcome o = true → (∀ d ∈ st.documents, d.id ≠ id) →
      (handleDeleteDocument st id o).documents = st.documents) := by
  have hfilter : isOkOutcome o = true →
      (handleDeleteDocument st id o).documents =
        st.documents.filter fun d => !(d.id == id) := by
    intro hok
    cases o <;> simp_all [isOkOutcome, handleDeleteDocument, deleteDocument,
      deleteDocumentTry]
  refine ⟨?_, hfilter, ?_, ?_⟩
  · intro hnok
    cases o <;> simp_all [isOkOutcome, handleDeleteDocument, deleteDocument,
      deleteDocumentTry]
  · intro hok hone
    rw [hfilter hok]
    have hpart := length_filter_id_partition st.documents id
    omega
  · intro hok habs
    rw [hfilter hok]
    apply List.filter_eq_self.mpr
    intro d hd
    simp [habs d hd]

/-- C8, witness: a transport failure leaves a one-document collection
unchanged, and a confirmed delete of a uniquely occurring id removes
exactly one entry. -/
theorem c8_amended_witness :
    (handleDeleteDocument
        { emptyDash with documents := [⟨"a", "a.pdf", 5, DocStatus.completed⟩] }
        "a" HttpOutcome.transportFailure).documents =
      [⟨"a", "a.pdf", 5, DocStatus.completed⟩] ∧
    (handleDeleteDocument
        { emptyDash with documents := [⟨"a", "a.pdf", 5, DocStatus.completed⟩] }
        "a" (HttpOutcome.ok ())).documents.length + 1 =
      ([⟨"a", "a.pdf", 5, DocStatus.completed⟩] : List Document).length :=
  ⟨(c8_amended { emptyDash with documents := [⟨"a", "a.pdf", 5, DocStatus.completed⟩] }
      "a" HttpOutcome.transportFailure).1 (by decide),
   (c8_amended { emptyDash with documents := [⟨"a", "a.pdf", 5, DocStatus.completed⟩] }
      "a" (HttpOutcome.ok ())).2.2.1 (by decide) (by decide)⟩

/-! ## Claim C9 -/

/-- C9, counterexample: no chunk-size persistence exists — even with a
value stored under the natural key, a fresh load yields the static
default 300, so a changed chunk size (e.g. 500) can never round-trip,
contradicting the claim that every config field is persisted. -/
theorem c9_counterexample :
    (loadConfig (setStore emptyStore "pdf-chatbot-chunkSize" "500")).chunkSize = 300 ∧
    (300 : Nat) ≠ 500 :=
  ⟨rfl, by decide⟩

/-- C9, amended: `temperature`, `model` and `darkMode` are each
independently persisted on change: setting temperature to 0.7 followed by
a fresh load from the persisted store yields temperature 0.7 with all the
other fields at their prior values, and with nothing persisted the load
falls back to temperature 0.1, model "Flan-T5 Small", darkMode false;
`chunkSize`, `chunkOverlap` and `maxTokens` are unpersisted inputs that
reload at the static defaults 300, 50 and 300 on every fresh load. -/
theorem c9_amended (st : Store) :
    (loadConfig (saveTemperature (7 / 10) st)).temperature = some (7 / 10) ∧
    (loadConfig (saveTemperature (7 / 10) st)).model = (loadConfig st).model ∧
    (loadConfig (saveTemperature (7 / 10) st)).darkMode = (loadConfig st).darkMode ∧
    (loadConfig (saveTemperature (7 / 10) st)).chunkSize = (loadConfig st).chunkSize ∧
    (loadConfig (saveTemperature (7 / 10) st)).chunkOverlap =
      (loadConfig st).chunkOverlap ∧
    (loadConfig (saveTemperature (7 / 10) st)).maxTokens = (loadConfig st).maxTokens ∧
    loadModel (saveModel "Flan-T5 Base" st) = "Flan-T5 Base" ∧
    loadDarkMode (saveDarkMode true st) = true ∧
    loadDarkMode (saveDarkMode false st) = false ∧
    loadConfig emptyStore =
      { temperature := some (1 / 10), model := "Flan-T5 Small", darkMode := false,
        chunkSize := 300, chunkOverlap := 50, maxTokens := 300 } ∧
    (loadConfig st).chunkSize = 300 ∧
    (loadConfig st).chunkOverlap = 50 ∧
    (loadConfig st).maxTokens = 300 := by
  refine ⟨?_, ?_, ?_, rfl, rfl, rfl, ?_, ?_, ?_, ?_, rfl, rfl, rfl⟩
  · show loadTemperature (saveTemperature (7 / 10) st) = some (7 / 10)
    rw [loadTemperature, saveTemperature, numToString_seven_tenths,
      lookup_setStore_same]
    simp [parseDecimal, splitDot, splitDotAux, digitsToNat?]
  · show loadModel (saveTemperature (7 / 10) st) = loadModel st
    rw [loadModel, loadModel, saveTemperature,
      lookup_setStore_other st temperatureKey modelKey _ (by decide)]
  · show loadDarkMode (saveTemperature (7 / 10) st) = loadDarkMode st
    rw [loadDarkMode, loadDarkMode, saveTemperature,
      lookup_setStore_other st temperatureKey darkModeKey _ (by decide)]
  · rw [loadModel, saveModel, lookup_setStore_same]
    decide
  · rw [loadDarkMode, saveDarkMode, lookup_setStore_same]
    decide
  · rw [loadDarkMode, saveDarkMode, lookup_setStore_same]
    decide
  · simp [loadConfig, loadTemperature, loadModel, loadDarkMode, lookupStore,
      emptyStore]

end RagPdfChatbot
